import Mathlib

/-!
Verification of the whispr capture engine and session controller.

This file gives a shallow embedding of the capture core of the repository
(`src-tauri/src/audio.rs` and the hotkey closure in `src-tauri/src/main.rs`)
and proves properties of it.  Samples (Rust `f32`) are modelled as rationals:
none of the verified properties depends on floating-point rounding — the
silence gate only compares amplitudes and copies samples verbatim, and the
stereo downmix is only evaluated at dyadic rationals where `f32` arithmetic
is exact.  External effects (the cpal device, the samplerate C library, the
whisper engine, Enigo) are modelled as oracle parameters.
-/

set_option autoImplicit false

namespace Whispr

/-- Structure `SilenceConfig` from `audio.rs` (lines 34-49): configuration of the
silence-removal gate.  `min_silence_duration` is a sample count. -/
structure SilenceConfig where
  enabled : Bool
  threshold : ℚ
  min_silence_duration : ℕ
deriving DecidableEq

/-- The `SilenceConfig::default()` values (audio.rs lines 41-49). -/
def SilenceConfig.default : SilenceConfig :=
  { enabled := false, threshold := 1/100, min_silence_duration := 1000 }

/-- The per-stream mutable counters of the silence gate: the closure-captured
`silence_counter` and `is_in_silence` of `build_input_stream_f32`
(audio.rs lines 230-231), fresh for every stream. -/
structure GateState where
  silence_counter : ℕ
  is_in_silence : Bool
deriving DecidableEq

/-- Magnitude `f32::abs` of the sample value, written as a conditional
negation so that it evaluates by kernel reduction. -/
def fabs (x : ℚ) : ℚ := if x < 0 then -x else x

/-- One iteration of the per-sample silence loop in `input_data_fn`
(audio.rs lines 249-264): given threshold, minimum run length and the gate
state, returns the new state and whether the sample is kept.
`amplitude > silence_threshold` resets the counter only when leaving
silence; `amplitude <= threshold` while not in silence increments the
counter and drops the sample exactly when the count reaches
`min_silence_duration`. -/
def gateStep (threshold : ℚ) (minDur : ℕ) (g : GateState) (sample : ℚ) :
    GateState × Bool :=
  let amplitude := fabs sample
  if threshold < amplitude then
    (if g.is_in_silence then ⟨0, false⟩ else g, true)
  else if g.is_in_silence = false then
    let c := g.silence_counter + 1
    if minDur ≤ c then (⟨c, true⟩, false) else (⟨c, false⟩, true)
  else
    (g, false)

/-- The silence loop over a delivered block: threads `gateStep` through the
samples and returns the final state together with `samples_to_keep`
(audio.rs lines 248-265). -/
def gateRun (threshold : ℚ) (minDur : ℕ) (g : GateState) :
    List ℚ → GateState × List ℚ
  | [] => (g, [])
  | s :: rest =>
    let step := gateStep threshold minDur g s
    let tail := gateRun threshold minDur step.1 rest
    (tail.1, if step.2 then s :: tail.2 else tail.2)

/-- The filtering stage of `input_data_fn` (audio.rs lines 246-268): with
silence removal enabled the gate runs over the block, otherwise every sample
is kept (`extend_from_slice`). -/
def processBlock (cfg : SilenceConfig) (g : GateState) (data : List ℚ) :
    GateState × List ℚ :=
  if cfg.enabled then gateRun cfg.threshold cfg.min_silence_duration g data
  else (g, data)

/-- The samples retained by one block. -/
def gateKept (cfg : SilenceConfig) (g : GateState) (data : List ℚ) : List ℚ :=
  (processBlock cfg g data).2

/-- Function `stereo_to_mono` (audio.rs lines 25-32): averages the two interleaved
channels of each frame; `chunks_exact(2)` discards an incomplete trailing
frame. -/
def stereo_to_mono : List ℚ → List ℚ
  | a :: b :: rest => (a + b) / 2 :: stereo_to_mono rest
  | _ => []

/-- The multi-channel branch of `get_captured_audio` (audio.rs lines
332-342): averages all `n` channels of each frame; `chunks_exact(n)`
discards an incomplete trailing frame. -/
def avg_chunks (n : ℕ) (l : List ℚ) : List ℚ :=
  if _h : 0 < n ∧ n ≤ l.length then
    (l.take n).sum / (n : ℚ) :: avg_chunks n (l.drop n)
  else []
termination_by l.length
decreasing_by
  simp only [List.length_drop]
  omega

/-- The external `samplerate::convert` call, an oracle: `none` models an
internal resampling failure (`Err` from the C library). Arguments mirror
the call in `audio_resample`: source rate, target rate, channel count,
data. -/
abbrev Resampler : Type := ℕ → ℕ → ℕ → List ℚ → Option (List ℚ)

/-- Function `audio_resample` (audio.rs lines 15-23): runs the converter and maps a
failure to the empty sequence (`unwrap_or_default`). -/
def audio_resample (convert : Resampler) (data : List ℚ)
    (sample_rate0 sample_rate : ℕ) (channels : ℕ) : List ℚ :=
  (convert sample_rate0 sample_rate channels data).getD []

/-- The native capture format `DeviceFormat` returned by
`default_input_config()`. -/
structure DeviceFormat where
  sample_rate : ℕ
  channels : ℕ
deriving DecidableEq

/-- The channel-conversion stage of `get_captured_audio` (audio.rs lines
328-342): stereo input with desired mono is downmixed pairwise; more than
two channels are averaged per frame regardless of the desired count; any
other combination is left unchanged. -/
def channel_step (fmt : DeviceFormat) (desired_channels : ℕ) (l : List ℚ) :
    List ℚ :=
  if fmt.channels = 2 ∧ desired_channels = 1 then stereo_to_mono l
  else if 2 < fmt.channels then avg_chunks fmt.channels l
  else l

/-- The channel-and-rate post-processing of `get_captured_audio` (audio.rs
lines 325-354): the channel step followed by resampling exactly when the
native rate differs from the desired rate. -/
def channel_and_rate_transform (convert : Resampler) (fmt : DeviceFormat)
    (desired_sample_rate desired_channels : ℕ) (l : List ℚ) : List ℚ :=
  let processed := channel_step fmt desired_channels l
  if fmt.sample_rate ≠ desired_sample_rate then
    audio_resample convert processed fmt.sample_rate desired_sample_rate
      desired_channels
  else processed

/-- Function `get_captured_audio` (audio.rs lines 302-364).  State threading is
explicit: the result is the returned `Option` together with the new
contents of `captured_audio`.  An empty buffer returns `None`; otherwise
the buffer is drained first, then the device format is queried
(`queryConfig`, `none` modelling an `Err` from `default_input_config()`
which returns `None` with the samples already discarded), then the
channel-and-rate transform runs and an empty result is mapped to `None`. -/
def get_captured_audio (convert : Resampler) (queryConfig : Option DeviceFormat)
    (desired_sample_rate desired_channels : ℕ) (buffer : List ℚ) :
    Option (List ℚ) × List ℚ :=
  if buffer = [] then (none, buffer)
  else
    match queryConfig with
    | none => (none, [])
    | some fmt =>
      let processed := channel_and_rate_transform convert fmt
        desired_sample_rate desired_channels buffer
      if processed = [] then (none, []) else (some processed, [])

/-- The state of `AudioManager` (audio.rs lines 51-60) relevant to capture:
`is_capturing`, the optional WAV sink (modelled by the samples written to
it), the shared silence configuration, the start instant (time in
milliseconds), the `captured_audio` buffer, and the closure-captured gate
counters of the currently built stream. -/
structure AudioState where
  is_capturing : Bool
  sink : Option (List ℚ)
  silence_config : SilenceConfig
  start_time : Option ℕ
  buffer : List ℚ
  gate : GateState
deriving DecidableEq

/-- The callback `input_data_fn` (audio.rs lines 233-286): no-op unless capturing;
otherwise filter the block through the gate, append the kept samples to the
sink (when present) and to `captured_audio`. -/
def inputDataFn (a : AudioState) (data : List ℚ) : AudioState :=
  if a.is_capturing = false then a
  else
    let step := processBlock a.silence_config a.gate data
    { a with
      gate := step.1
      sink := a.sink.map (· ++ step.2)
      buffer := a.buffer ++ step.2 }

/-- The environment of one `start_capture` call: whether the device/stream
work (`default_input_config`, `WavWriter::create`, `build_input_stream`,
`play` — modelled as a single failure point, taken before any state
mutation), the `save_recordings` setting, and the current instant. -/
structure StartEnv where
  deviceOk : Bool
  save_recordings : Bool
  now : ℕ
deriving DecidableEq

/-- Function `start_capture` (audio.rs lines 129-179): on success it installs a
fresh sink when `save_recordings` is on, records the start instant, builds
the input stream — which clears `captured_audio` (line 228) and captures
fresh gate counters (lines 230-231) — and marks the engine capturing. -/
def start_capture (env : StartEnv) (a : AudioState) : Except Unit AudioState :=
  if env.deviceOk = false then .error ()
  else .ok
    { a with
      sink := if env.save_recordings then some [] else none
      start_time := some env.now
      buffer := []
      gate := ⟨0, false⟩
      is_capturing := true }

/-- Function `stop_capture` (audio.rs lines 181-216): marks the engine not
capturing, drops the stream, finalizes and removes the WAV sink, and takes
the start instant.  The `captured_audio` buffer is deliberately NOT
cleared (lines 210-212). -/
def stop_capture (a : AudioState) : AudioState :=
  { a with
    is_capturing := false
    sink := none
    start_time := none }

/-- The retained samples of a whole session: `processBlock` threaded over
the delivered blocks, returning the final gate state and the concatenation
of all kept samples. -/
def processBlocks (cfg : SilenceConfig) (g : GateState) :
    List (List ℚ) → GateState × List ℚ
  | [] => (g, [])
  | b :: rest =>
    let step := processBlock cfg g b
    let tail := processBlocks cfg step.1 rest
    (tail.1, step.2 ++ tail.2)

/-- Constant `MIN_RECORDING_DURATION` (main.rs line 30): one second, in the
millisecond time unit used throughout this model. -/
def MIN_RECORDING_DURATION : ℕ := 1000

/-- A whisper segment `(start, end, text)` as returned by
`WhisperProcessor::process_audio`. -/
abbrev Segment : Type := ℚ × ℚ × String

/-- The state driven by the hotkey closure in `setup_app` (main.rs lines
171-264): the available permits of `recording_semaphore` (created with one
permit, main.rs line 72), `recording_start`, the audio manager, the overlay
visibility, the log of `status-change` emissions, and the log of
`process_audio` invocations (each entry the sample buffer handed over). -/
structure CtrlState where
  permits : ℕ
  recording_start : Option ℕ
  audio : AudioState
  overlay_visible : Bool
  emits : List String
  transcribe_calls : List (List ℚ)

/-- Semantics of `tokio::sync::Semaphore::try_acquire`: succeeds exactly when a permit
is available, decrementing the available count; the returned
`SemaphorePermit` guard restores the count when dropped. -/
def try_acquire (n : ℕ) : Option ℕ := if 0 < n then some (n - 1) else none

/-- The press branch of the hotkey closure (main.rs lines 175-188).  The
acquired `SemaphorePermit` is bound as `_permit` and `forget()` is never
called, so the guard is dropped — and its permit returned, hence
`remaining + 1` — at every exit of the block, including the early return
after a failed `start_capture`.  On acquisition failure the press is
ignored (`warn "Recording already in progress"`). -/
def onPress (env : StartEnv) (s : CtrlState) : CtrlState :=
  match try_acquire s.permits with
  | none => s
  | some remaining =>
    let s := { s with overlay_visible := true }
    match start_capture env s.audio with
    | .error _ => { s with permits := remaining + 1 }
    | .ok a =>
      { s with
        permits := remaining + 1
        audio := a
        recording_start := some env.now
        emits := s.emits ++ ["Listening"] }

/-- The environment of one release event: the instant, the device-format
query made inside `get_captured_audio`, the resampler, the whisper engine
(an oracle from the handed-over samples to segments or an error), and the
outcomes of `Enigo::new` and `enigo.text` (main.rs lines 225-240, modelled
as booleans since only the branch taken matters). -/
structure ReleaseEnv where
  now : ℕ
  queryConfig : Option DeviceFormat
  convert : Resampler
  whisper : List ℚ → Except String (List Segment)
  enigo_new_ok : Bool
  enigo_text_ok : Bool

/-- The transcription phase of the release branch (main.rs lines 204-261):
emit "Transcribing", drain the buffer via `get_captured_audio(16000, 1)`;
on `Some` hand the samples to `process_audio` and walk the
success/empty-segments/Enigo cascade; every path emits "Ready" and hides
the overlay, but `add_permits(1)` runs only on the full-success path (line
261) — all other paths leave via early `return`. -/
def transcribePhase (env : ReleaseEnv) (s : CtrlState) : CtrlState :=
  let s := { s with emits := s.emits ++ ["Transcribing"] }
  match get_captured_audio env.convert env.queryConfig 16000 1
      s.audio.buffer with
  | (some samples, buf) =>
    let s := { s with
      audio := { s.audio with buffer := buf }
      transcribe_calls := s.transcribe_calls ++ [samples] }
    match env.whisper samples with
    | .ok segments =>
      if segments = [] then
        { s with emits := s.emits ++ ["Ready"], overlay_visible := false }
      else if env.enigo_new_ok = false then
        { s with emits := s.emits ++ ["Ready"], overlay_visible := false }
      else if env.enigo_text_ok = false then
        { s with emits := s.emits ++ ["Ready"], overlay_visible := false }
      else
        { s with
          emits := s.emits ++ ["Ready"]
          overlay_visible := false
          permits := s.permits + 1 }
    | .error _ =>
      { s with emits := s.emits ++ ["Ready"], overlay_visible := false }
  | (none, buf) =>
    { s with
      audio := { s.audio with buffer := buf }
      emits := s.emits ++ ["Ready"]
      overlay_visible := false }

/-- The release branch of the hotkey closure (main.rs lines 189-262):
`stop_capture`, then `recording_start.take()`; a session shorter than
`MIN_RECORDING_DURATION` is discarded (emit "Ready", hide, early return
— no drain, no transcription); otherwise, and also when `recording_start`
was already `None`, control falls through to the transcription phase. -/
def onRelease (env : ReleaseEnv) (s : CtrlState) : CtrlState :=
  let s := { s with audio := stop_capture s.audio }
  match s.recording_start with
  | some start =>
    let s := { s with recording_start := none }
    if env.now - start < MIN_RECORDING_DURATION then
      { s with emits := s.emits ++ ["Ready"], overlay_visible := false }
    else
      transcribePhase env s
  | none => transcribePhase env s

/-! Concrete fixtures used by witnesses and counterexamples. -/

/-- A resampler whose conversion always fails internally. -/
def noResampler : Resampler := fun _ _ _ _ => none

/-- A resampler that always succeeds, returning a fixed block. -/
def okResampler : Resampler := fun _ _ _ _ => some [9]

/-- An idle audio manager with the default silence configuration. -/
def idleAudio : AudioState :=
  { is_capturing := false
    sink := none
    silence_config := SilenceConfig.default
    start_time := none
    buffer := []
    gate := ⟨0, false⟩ }

/-- An audio manager left over from an earlier session: idle but with a
residual undrained buffer and stale gate counters. -/
def residualAudio : AudioState :=
  { idleAudio with buffer := [7], gate := ⟨5, true⟩ }

/-- State of `residualAudio` right after a successful `start_capture` at instant 0
with `save_recordings` off. -/
def startedAudio : AudioState :=
  { residualAudio with
    sink := none
    start_time := some 0
    buffer := []
    gate := ⟨0, false⟩
    is_capturing := true }


/-- An audio manager mid-session: capturing since instant 0 with one
retained sample in the buffer. -/
def capturingAudio : AudioState :=
  { idleAudio with
    is_capturing := true
    start_time := some 0
    buffer := [1/2] }

/-- The controller mid-session: one available permit (the press handler's
`SemaphorePermit` has already been dropped), recording since instant 0. -/
def recordingCtrl : CtrlState :=
  { permits := 1
    recording_start := some 0
    audio := capturingAudio
    overlay_visible := true
    emits := ["Listening"]
    transcribe_calls := [] }

/-- A release at instant 400 (0.4 s into the session), native format
16 kHz mono, whisper returning no segments. -/
def shortReleaseEnv : ReleaseEnv :=
  { now := 400
    queryConfig := some ⟨16000, 1⟩
    convert := noResampler
    whisper := fun _ => .ok []
    enigo_new_ok := true
    enigo_text_ok := true }

/-- A release at instant 2000 (2 s into the session), native format
16 kHz mono, whisper succeeding with one segment, Enigo working. -/
def longReleaseEnv : ReleaseEnv :=
  { now := 2000
    queryConfig := some ⟨16000, 1⟩
    convert := noResampler
    whisper := fun _ => .ok [(0, 1, "ok")]
    enigo_new_ok := true
    enigo_text_ok := true }

/-- The controller at startup: the semaphore holds its single permit. -/
def initCtrl : CtrlState :=
  { permits := 1
    recording_start := none
    audio := idleAudio
    overlay_visible := false
    emits := []
    transcribe_calls := [] }

/-- The controller after the first hotkey press at instant 0. -/
def pressedOnce : CtrlState := onPress ⟨true, false, 0⟩ initCtrl

/-- The first session after the audio callback delivered the block
`[0.5]`. -/
def afterBlock : CtrlState :=
  { pressedOnce with audio := inputDataFn pressedOnce.audio [1/2] }

/-- A second hotkey press at instant 100, while the first session is still
recording. -/
def pressedTwice : CtrlState := onPress ⟨true, false, 100⟩ afterBlock


/-! Claim theorems. -/

/-- C4: with silence removal enabled, threshold `0.1` and minimum run
length `3`, from the fresh per-session gate state the amplitude sequence
`[0.5, 0.05, 0.05, 0.05, 0.05, 0.5]` retains exactly
`[0.5, 0.05, 0.05, 0.5]`: the run of low samples reaches the count at
index 3, so indices 3 and 4 are dropped and index 5 exits silence. -/
theorem C4_concrete_gate_scenario :
    gateKept ⟨true, 1/10, 3⟩ ⟨0, false⟩ [1/2, 1/20, 1/20, 1/20, 1/20, 1/2]
      = [1/2, 1/20, 1/20, 1/2] := by
  norm_num [gateKept, processBlock, gateRun, gateStep, fabs]

/-- C5: `get_captured_audio` returns `None` on an empty buffer for every
resampler, device-format query outcome and desired format, leaving the
buffer empty; on a non-empty buffer (with the device-format query
succeeding) it empties the buffer, applies the channel-and-rate transform
and returns `Some` of the result unless the transform is empty, in which
case it returns `None`. -/
theorem C5_drain_contract :
    (∀ (convert : Resampler) (queryConfig : Option DeviceFormat)
        (rate ch : ℕ),
      get_captured_audio convert queryConfig rate ch [] = (none, [])) ∧
    (∀ (convert : Resampler) (fmt : DeviceFormat) (rate ch : ℕ)
        (buffer : List ℚ), buffer ≠ [] →
      get_captured_audio convert (some fmt) rate ch buffer =
        (if channel_and_rate_transform convert fmt rate ch buffer = []
            then none
            else some (channel_and_rate_transform convert fmt rate ch buffer),
         [])) := by
  constructor
  · intro convert queryConfig rate ch
    simp [get_captured_audio]
  · intro convert fmt rate ch buffer hb
    simp only [get_captured_audio, hb, if_false]
    split <;> simp_all

/-- Witness for C5 at an empty buffer and at the one-sample buffer
`[0.5]` with native format 16 kHz mono. -/
theorem C5_drain_contract_witness :
    get_captured_audio noResampler none 16000 1 [] = (none, []) ∧
    get_captured_audio noResampler (some ⟨16000, 1⟩) 16000 1 [1/2]
      = (some [1/2], []) := by
  constructor
  · exact C5_drain_contract.1 noResampler none 16000 1
  · have h := C5_drain_contract.2 noResampler ⟨16000, 1⟩ 16000 1 [1/2]
      (by simp)
    rw [h]
    norm_num [channel_and_rate_transform, channel_step]

/-- C8 fails as stated: with equal native and desired rates but stereo
native format and desired mono, the drained output is the pairwise
downmix, not bit-identical to the buffer contents.  At buffer
`[0.5, 0.25]` the output is `[0.375]`. -/
theorem C8_counterexample :
    get_captured_audio noResampler (some ⟨16000, 2⟩) 16000 1 [1/2, 1/4]
      = (some [3/8], []) ∧
    (some [3/8] : Option (List ℚ)) ≠ some [1/2, 1/4] := by
  constructor
  · unfold get_captured_audio
    rw [if_neg (by simp : ¬ (([1/2, 1/4] : List ℚ) = []))]
    norm_num [channel_and_rate_transform, channel_step, stereo_to_mono]
  · simp

/-- C8 amended: if the native sample rate equals the desired rate,
`get_captured_audio` performs no resampling step — its value does not
depend on the resampler at all — and its output is bit-identical to the
channel-step output on the buffer; when additionally no channel conversion
applies (native channel count at most 2 and not the stereo-to-mono case),
the output is bit-identical to the buffer contents. -/
theorem C8_amended_rate_identity (convert convert' : Resampler)
    (fmt : DeviceFormat) (rate ch : ℕ) (buffer : List ℚ)
    (hrate : fmt.sample_rate = rate) :
    get_captured_audio convert (some fmt) rate ch buffer =
      get_captured_audio convert' (some fmt) rate ch buffer ∧
    (buffer ≠ [] →
      get_captured_audio convert (some fmt) rate ch buffer =
        (if channel_step fmt ch buffer = [] then none
         else some (channel_step fmt ch buffer), [])) ∧
    (buffer ≠ [] → fmt.channels ≤ 2 → (fmt.channels = 2 → ch ≠ 1) →
      get_captured_audio convert (some fmt) rate ch buffer
        = (some buffer, [])) := by
  have hid : ∀ c : Resampler,
      channel_and_rate_transform c fmt rate ch buffer
        = channel_step fmt ch buffer := by
    intro c
    simp [channel_and_rate_transform, hrate]
  refine ⟨?_, ?_, ?_⟩
  · simp [get_captured_audio, hid]
  · intro hb
    simp only [get_captured_audio, hb, if_false, hid]
    split <;> simp_all
  · intro hb hle hne
    have hstep : channel_step fmt ch buffer = buffer := by
      have h2 : ¬ (fmt.channels = 2 ∧ ch = 1) := by
        rintro ⟨h, h1⟩
        exact hne h h1
      have h3 : ¬ (2 < fmt.channels) := not_lt.mpr hle
      simp [channel_step, h2, h3]
    simp [get_captured_audio, hb, hid, hstep]

/-- Witness for C8 amended at native format 16 kHz mono and buffer
`[0.5]`: both resamplers agree and the output is the buffer itself. -/
theorem C8_amended_rate_identity_witness :
    get_captured_audio noResampler (some ⟨16000, 1⟩) 16000 1 [1/2]
      = get_captured_audio okResampler (some ⟨16000, 1⟩) 16000 1 [1/2] ∧
    get_captured_audio noResampler (some ⟨16000, 1⟩) 16000 1 [1/2]
      = (some [1/2], []) := by
  have h := C8_amended_rate_identity noResampler okResampler ⟨16000, 1⟩
    16000 1 [1/2] rfl
  exact ⟨h.1, h.2.2 (by simp) (by norm_num) (by norm_num)⟩

/-- C9: when the internal conversion fails, the channel-and-rate transform
yields the empty sequence and `get_captured_audio` returns `None` ("no
audio") with the buffer drained; the `Option` return type propagates no
hard error. -/
theorem C9_resample_failure_is_no_audio (convert : Resampler)
    (fmt : DeviceFormat) (rate ch : ℕ) (buffer : List ℚ)
    (hb : buffer ≠ []) (hrate : fmt.sample_rate ≠ rate)
    (hfail : convert fmt.sample_rate rate ch (channel_step fmt ch buffer)
      = none) :
    channel_and_rate_transform convert fmt rate ch buffer = [] ∧
    get_captured_audio convert (some fmt) rate ch buffer = (none, []) := by
  have ht : channel_and_rate_transform convert fmt rate ch buffer = [] := by
    simp [channel_and_rate_transform, hrate, audio_resample, hfail]
  exact ⟨ht, by simp [get_captured_audio, hb, ht]⟩

/-- Witness for C9: native 48 kHz mono resampled to 16 kHz with a failing
converter on buffer `[0.5]`. -/
theorem C9_resample_failure_is_no_audio_witness :
    channel_and_rate_transform noResampler ⟨48000, 1⟩ 16000 1 [1/2] = [] ∧
    get_captured_audio noResampler (some ⟨48000, 1⟩) 16000 1 [1/2]
      = (none, []) :=
  C9_resample_failure_is_no_audio noResampler ⟨48000, 1⟩ 16000 1 [1/2]
    (by simp) (by norm_num) rfl

/-- C10: draining a non-empty buffer always leaves the buffer empty — also
when the call returns `None` because the device-format query failed or the
transform was empty — and a second drain on the resulting buffer returns
`None`. -/
theorem C10_drain_discards_on_failure (convert : Resampler)
    (queryConfig : Option DeviceFormat) (rate ch : ℕ) (buffer : List ℚ)
    (hb : buffer ≠ []) (convert' : Resampler)
    (queryConfig' : Option DeviceFormat) (rate' ch' : ℕ) :
    (get_captured_audio convert queryConfig rate ch buffer).2 = [] ∧
    (get_captured_audio convert' queryConfig' rate' ch'
      (get_captured_audio convert queryConfig rate ch buffer).2).1
        = none := by
  have h2 : (get_captured_audio convert queryConfig rate ch buffer).2 = [] := by
    unfold get_captured_audio
    rw [if_neg hb]
    cases queryConfig with
    | none => rfl
    | some fmt =>
      dsimp only
      split <;> rfl
  refine ⟨h2, ?_⟩
  rw [h2]
  simp [get_captured_audio]

/-- Witness for C10: buffer `[0.5]` with a failed device-format query —
the first drain returns `None` yet discards the sample, and the second
drain returns `None` as well. -/
theorem C10_drain_discards_on_failure_witness :
    (get_captured_audio noResampler none 16000 1 [1/2]).2 = [] ∧
    (get_captured_audio okResampler (some ⟨16000, 1⟩) 16000 1
      (get_captured_audio noResampler none 16000 1 [1/2]).2).1 = none :=
  C10_drain_discards_on_failure noResampler none 16000 1 [1/2] (by simp)
    okResampler (some ⟨16000, 1⟩) 16000 1

/-! Lemmas about the silence gate, used for C3. -/

/-- The modelled `f32::abs` agrees with the mathematical absolute value. -/
theorem fabs_eq_abs (x : ℚ) : fabs x = |x| := by
  unfold fabs
  split
  · exact (abs_of_neg (by assumption)).symm
  · exact (abs_of_nonneg (by linarith [not_lt.mp (by assumption)])).symm

theorem gateRun_append (T : ℚ) (D : ℕ) (g : GateState) (l1 l2 : List ℚ) :
    gateRun T D g (l1 ++ l2) =
      ((gateRun T D (gateRun T D g l1).1 l2).1,
       (gateRun T D g l1).2 ++ (gateRun T D (gateRun T D g l1).1 l2).2) := by
  induction l1 generalizing g with
  | nil => simp [gateRun]
  | cons x rest ih =>
    simp only [List.cons_append, gateRun]
    by_cases hk : (gateStep T D g x).2 <;> simp [hk, ih]

/-- Within the grace window (fewer than `min_silence_duration` accumulated
low samples) every low sample is kept and only the counter advances. -/
theorem gateRun_grace (T : ℚ) (D : ℕ) (l : List ℚ) (c : ℕ)
    (hl : ∀ x ∈ l, fabs x ≤ T) (hc : c + l.length < D) :
    gateRun T D ⟨c, false⟩ l = (⟨c + l.length, false⟩, l) := by
  induction l generalizing c with
  | nil => simp [gateRun]
  | cons x rest ih =>
    have hx : ¬ (T < fabs x) := not_lt.mpr (hl x (List.mem_cons_self x rest))
    have hD : ¬ (D ≤ c + 1) := by
      simp only [List.length_cons] at hc
      omega
    have hrec := ih (c + 1)
      (fun y hy => hl y (List.mem_cons_of_mem x hy))
      (by simp only [List.length_cons] at hc ⊢; omega)
    simp only [gateRun, gateStep, hx, if_false, hD]
    simp only [List.length_cons] at hrec ⊢
    rw [show c + (rest.length + 1) = c + 1 + rest.length by omega]
    simp [hrec]

/-- Once in silence, every low sample is dropped with no state change. -/
theorem gateRun_silent (T : ℚ) (D : ℕ) (l : List ℚ) (c : ℕ)
    (hl : ∀ x ∈ l, fabs x ≤ T) :
    gateRun T D ⟨c, true⟩ l = (⟨c, true⟩, []) := by
  induction l with
  | nil => simp [gateRun]
  | cons x rest ih =>
    have hx : ¬ (T < fabs x) := not_lt.mpr (hl x (List.mem_cons_self x rest))
    have hrec := ih (fun y hy => hl y (List.mem_cons_of_mem x hy))
    simp [gateRun, gateStep, hx, hrec]

/-- A low sample that brings the accumulated count up to the minimum run
length flips the gate into silence and is itself dropped. -/
theorem gateStep_flip (T : ℚ) (D : ℕ) (c : ℕ) (x : ℚ)
    (hx : fabs x ≤ T) (hD : D ≤ c + 1) :
    gateStep T D ⟨c, false⟩ x = (⟨c + 1, true⟩, false) := by
  simp [gateStep, not_lt.mpr hx, hD]

/-- A sample above the threshold is always kept; it resets the counter
exactly when the gate was in silence. -/
theorem gateStep_high (T : ℚ) (D : ℕ) (g : GateState) (x : ℚ)
    (hx : T < fabs x) :
    gateStep T D g x = (if g.is_in_silence then ⟨0, false⟩ else g, true) := by
  simp [gateStep, hx]

/-- C3 fails as stated: the gate's counter is reset only when leaving
silence, so low samples accumulated before an intervening loud sample
still count toward the run.  With threshold `0.1` and minimum run length
`3`, on `[0.05, 0.05, 0.5, 0.05, 0.05, 0.05]` the run of three low
samples at indices 3-5 immediately follows the non-silent sample at index
2, yet its first sample (index 3, the stale counter already at 2) is
dropped — the kept list is `[0.05, 0.05, 0.5]`, not the
`[0.05, 0.05, 0.5, 0.05, 0.05]` that dropping only the run's third sample
first would produce. -/
theorem C3_counterexample :
    gateKept ⟨true, 1/10, 3⟩ ⟨0, false⟩ [1/20, 1/20, 1/2, 1/20, 1/20, 1/20]
      = [1/20, 1/20, 1/2] ∧
    ([1/20, 1/20, 1/2] : List ℚ) ≠ [1/20, 1/20, 1/2, 1/20, 1/20] := by
  constructor
  · norm_num [gateKept, processBlock, gateRun, gateStep, fabs]
  · simp

/-- C3 amended: with silence removal enabled, threshold `T` and minimum
run length `D ≥ 1`, a contiguous run of `D` samples of amplitude at most
`T` that immediately follows a non-silent sample processed from the reset
gate state (counter `0`, not in silence — as at session start or right
after a silence exit) has exactly its `D`-th sample as the first dropped:
the run's first `D - 1` samples are kept, the `D`-th flips the gate into
silence and is dropped, every following sample of amplitude at most `T`
is dropped, and the first sample of amplitude above `T` is kept again and
resets the gate. -/
theorem C3_amended_silence_run (T : ℚ) (D : ℕ) (hD : 0 < D) (pre : ℚ)
    (run tail : List ℚ) (h : ℚ) (hpre : T < fabs pre)
    (hlen : run.length = D) (hrun : ∀ x ∈ run, fabs x ≤ T)
    (htail : ∀ x ∈ tail, fabs x ≤ T) (hh : T < fabs h) :
    gateRun T D ⟨0, false⟩ (pre :: (run ++ tail ++ [h]))
      = (⟨0, false⟩, pre :: (run.take (D - 1) ++ [h])) := by
  obtain ⟨a, ha⟩ : ∃ a, run.drop (D - 1) = [a] := by
    have hlen2 : (run.drop (D - 1)).length = 1 := by
      simp [hlen]
      omega
    exact List.length_eq_one.mp hlen2
  have hrun2 : run = run.take (D - 1) ++ [a] := by
    rw [← ha]
    exact (List.take_append_drop (D - 1) run).symm
  have htakeLen : (run.take (D - 1)).length = D - 1 := by
    simp [hlen]
  have htake : ∀ x ∈ run.take (D - 1), fabs x ≤ T :=
    fun x hx => hrun x (List.mem_of_mem_take hx)
  have hamem : a ∈ run := by
    rw [hrun2]
    simp
  have hstep1 : gateStep T D ⟨0, false⟩ pre = (⟨0, false⟩, true) := by
    rw [gateStep_high T D ⟨0, false⟩ pre hpre]
    rfl
  have hgrace : gateRun T D ⟨0, false⟩ (run.take (D - 1))
      = (⟨D - 1, false⟩, run.take (D - 1)) := by
    have := gateRun_grace T D (run.take (D - 1)) 0 htake
      (by rw [htakeLen]; omega)
    simpa [htakeLen] using this
  have hflip : gateRun T D ⟨D - 1, false⟩ [a] = (⟨D, true⟩, []) := by
    have hstep := gateStep_flip T D (D - 1) a (hrun a hamem) (by omega)
    rw [show D - 1 + 1 = D by omega] at hstep
    simp [gateRun, hstep]
  have hsil : gateRun T D ⟨D, true⟩ tail = (⟨D, true⟩, []) :=
    gateRun_silent T D tail D htail
  have hexit : gateRun T D ⟨D, true⟩ [h] = (⟨0, false⟩, [h]) := by
    rw [gateRun]
    rw [gateRun]
    rw [gateStep_high T D ⟨D, true⟩ h hh]
    rfl
  have hbody : gateRun T D ⟨0, false⟩ (run ++ tail ++ [h])
      = (⟨0, false⟩, run.take (D - 1) ++ [h]) := by
    calc gateRun T D ⟨0, false⟩ (run ++ tail ++ [h])
        = gateRun T D ⟨0, false⟩
            (run.take (D - 1) ++ ([a] ++ (tail ++ [h]))) := by
          rw [← List.append_assoc, ← hrun2, List.append_assoc]
      _ = (⟨0, false⟩, run.take (D - 1) ++ [h]) := by
          rw [gateRun_append, hgrace]
          simp only
          rw [gateRun_append, hflip]
          simp only
          rw [gateRun_append, hsil]
          simp only
          rw [hexit]
          simp
  rw [gateRun]
  rw [hstep1]
  simp only
  rw [hbody]
  simp

/-- Witness for C3 amended: threshold `0.1`, minimum run length `3`, a
loud sample, a run of three low samples, two more low samples and a final
loud sample — the kept list is the loud sample, the first two samples of
the run and the final loud sample. -/
theorem C3_amended_silence_run_witness :
    gateRun (1/10) 3 ⟨0, false⟩
      ((1/2) :: ([1/20, 1/20, 1/20] ++ [1/20, 1/20] ++ [1/2]))
      = (⟨0, false⟩, [1/2, 1/20, 1/20, 1/2]) := by
  have hlow : ∀ x ∈ ([1/20, 1/20, 1/20] : List ℚ), fabs x ≤ 1/10 := by
    simp only [List.mem_cons, List.not_mem_nil, or_false]
    rintro x (rfl | rfl | rfl) <;> norm_num [fabs]
  have hlow2 : ∀ x ∈ ([1/20, 1/20] : List ℚ), fabs x ≤ 1/10 := by
    simp only [List.mem_cons, List.not_mem_nil, or_false]
    rintro x (rfl | rfl) <;> norm_num [fabs]
  have hhigh : (1:ℚ)/10 < fabs (1/2) := by norm_num [fabs]
  have hmain := C3_amended_silence_run (1/10) 3 (by norm_num) (1/2)
    [1/20, 1/20, 1/20] [1/20, 1/20] (1/2) hhigh (by simp) hlow hlow2 hhigh
  simpa using hmain

/-- Running the real-time callback over a list of delivered blocks while
capturing: the gate threads through the blocks, the kept samples are
appended to the buffer and to the sink, and the capturing flag and silence
configuration are untouched. -/
theorem foldl_inputDataFn (blocks : List (List ℚ)) (a : AudioState)
    (ha : a.is_capturing = true) :
    blocks.foldl inputDataFn a =
      { a with
        gate := (processBlocks a.silence_config a.gate blocks).1
        sink := a.sink.map
          (· ++ (processBlocks a.silence_config a.gate blocks).2)
        buffer := a.buffer ++ (processBlocks a.silence_config a.gate blocks).2
      } := by
  induction blocks generalizing a with
  | nil =>
    simp [processBlocks]
  | cons b rest ih =>
    have hstep : inputDataFn a b =
        { a with
          gate := (processBlock a.silence_config a.gate b).1
          sink := a.sink.map (· ++ (processBlock a.silence_config a.gate b).2)
          buffer := a.buffer ++ (processBlock a.silence_config a.gate b).2 } := by
      simp [inputDataFn, ha]
    have hrec := ih (inputDataFn a b) (by rw [hstep]; exact ha)
    rw [List.foldl_cons, hrec, hstep]
    simp only [processBlocks]
    cases hs : a.sink <;> simp [hs, List.append_assoc]

/-- C7: `stop_capture` never clears the capture buffer; a successful
`start_capture` clears any residual buffer from a prior session even if it
was never drained, and after a session of delivered blocks followed by
`stop_capture` the buffer holds exactly the samples the gate retained
during that session. -/
theorem C7_stop_keeps_start_clears_buffer (a : AudioState) (env : StartEnv)
    (blocks : List (List ℚ)) (a' : AudioState)
    (hstart : start_capture env a = .ok a') :
    (stop_capture a).buffer = a.buffer ∧
    a'.buffer = [] ∧
    (stop_capture (blocks.foldl inputDataFn a')).buffer
      = (processBlocks a.silence_config ⟨0, false⟩ blocks).2 := by
  have ha' : a' =
      { a with
        sink := if env.save_recordings then some [] else none
        start_time := some env.now
        buffer := []
        gate := ⟨0, false⟩
        is_capturing := true } := by
    unfold start_capture at hstart
    by_cases hd : env.deviceOk = false
    · rw [if_pos hd] at hstart
      cases hstart
    · rw [if_neg hd] at hstart
      cases hstart
      rfl
  refine ⟨rfl, by rw [ha'], ?_⟩
  rw [foldl_inputDataFn blocks a' (by rw [ha'])]
  rw [ha']
  rfl

/-- Witness for C7: an idle manager with residual buffer `[7]` and stale
gate counters is started (clearing the residue) and fed the blocks
`[[0.5], [0.25]]` with silence removal disabled; stopping preserves
`[7]` before the restart and leaves exactly `[0.5, 0.25]` after the
session. -/
theorem C7_stop_keeps_start_clears_buffer_witness :
    (stop_capture residualAudio).buffer = [7] ∧
    startedAudio.buffer = [] ∧
    (stop_capture ([[1/2], [1/4]].foldl inputDataFn startedAudio)).buffer
      = [1/2, 1/4] := by
  have hstart : start_capture ⟨true, false, 0⟩ residualAudio
      = .ok startedAudio := rfl
  have h := C7_stop_keeps_start_clears_buffer residualAudio ⟨true, false, 0⟩
    [[1/2], [1/4]] startedAudio hstart
  refine ⟨h.1, h.2.1, ?_⟩
  rw [h.2.2]
  norm_num [processBlocks, processBlock, residualAudio, idleAudio,
    SilenceConfig.default]

/-- What the transcription phase of the release branch guarantees: the
emission log gains "Transcribing" then "Ready", `recording_start` is
untouched, the permit count never decreases (it even grows on the
full-success path), and the drained samples are handed to `process_audio`
exactly when the drain returned `Some`. -/
theorem transcribePhase_spec (env : ReleaseEnv) (s : CtrlState) :
    (transcribePhase env s).emits = s.emits ++ ["Transcribing", "Ready"] ∧
    (transcribePhase env s).recording_start = s.recording_start ∧
    s.permits ≤ (transcribePhase env s).permits ∧
    (∀ samples buf,
      get_captured_audio env.convert env.queryConfig 16000 1 s.audio.buffer
        = (some samples, buf) →
      (transcribePhase env s).transcribe_calls
        = s.transcribe_calls ++ [samples]) ∧
    ((get_captured_audio env.convert env.queryConfig 16000 1
        s.audio.buffer).1 = none →
      (transcribePhase env s).transcribe_calls = s.transcribe_calls) := by
  rcases hd : get_captured_audio env.convert env.queryConfig 16000 1
    s.audio.buffer with ⟨res, buf⟩
  unfold transcribePhase
  dsimp only
  rw [hd]
  cases res with
  | none =>
    dsimp only
    refine ⟨by simp, rfl, le_refl _, ?_, fun _ => rfl⟩
    intro samples buf2 hsome
    simp at hsome
  | some samples =>
    dsimp only
    cases hw : env.whisper samples with
    | ok segments =>
      dsimp only
      refine ⟨?_, ?_, ?_, ?_, ?_⟩
      · split_ifs <;> simp
      · split_ifs <;> rfl
      · split_ifs <;> dsimp only <;> omega
      · intro samples2 buf2 hsome
        injection hsome with h1 h2
        injection h1 with h1
        subst h1
        split_ifs <;> rfl
      · intro hn
        simp at hn
    | error e =>
      dsimp only
      refine ⟨by simp, rfl, le_refl _, ?_, ?_⟩
      · intro samples2 buf2 hsome
        injection hsome with h1 h2
        injection h1 with h1
        subst h1
        rfl
      · intro hn
        simp at hn

/-- C6: a release while recording with elapsed duration below
`MIN_RECORDING_DURATION` discards the session: `process_audio` is not
invoked, the buffer is not drained, the UI is notified "Ready" and the
controller returns to idle. -/
theorem C6_short_session_discarded (env : ReleaseEnv) (s : CtrlState)
    (start : ℕ) (hs : s.recording_start = some start)
    (hshort : env.now - start < MIN_RECORDING_DURATION) :
    (onRelease env s).transcribe_calls = s.transcribe_calls ∧
    (onRelease env s).audio.buffer = s.audio.buffer ∧
    (onRelease env s).emits = s.emits ++ ["Ready"] ∧
    (onRelease env s).recording_start = none := by
  unfold onRelease
  dsimp only
  rw [hs]
  dsimp only
  rw [if_pos hshort]
  exact ⟨rfl, rfl, rfl, rfl⟩

/-- Witness for C6: a 0.4 s session against the 1 s minimum — zero
transcription invocations, buffer untouched, UI reset to "Ready". -/
theorem C6_short_session_discarded_witness :
    (onRelease shortReleaseEnv recordingCtrl).transcribe_calls = [] ∧
    (onRelease shortReleaseEnv recordingCtrl).audio.buffer = [1/2] ∧
    (onRelease shortReleaseEnv recordingCtrl).emits
      = ["Listening", "Ready"] ∧
    (onRelease shortReleaseEnv recordingCtrl).recording_start = none := by
  have h := C6_short_session_discarded shortReleaseEnv recordingCtrl 0 rfl
    (by decide)
  exact ⟨h.1, h.2.1, h.2.2.1, h.2.2.2⟩

/-- C2: a release while recording with elapsed duration at or above the
minimum always ends with the controller idle, the permit available, and
the emission log gaining "Transcribing" then "Ready"; the drained buffer
is handed to `process_audio` exactly when the drain returns `Some`, and
on `None` no transcription happens — whether whisper succeeds or fails. -/
theorem C2_release_after_min_duration (env : ReleaseEnv) (s : CtrlState)
    (start : ℕ) (hs : s.recording_start = some start)
    (hlong : ¬ (env.now - start < MIN_RECORDING_DURATION))
    (hp : 1 ≤ s.permits) :
    (onRelease env s).recording_start = none ∧
    1 ≤ (onRelease env s).permits ∧
    (onRelease env s).emits = s.emits ++ ["Transcribing", "Ready"] ∧
    (∀ samples buf,
      get_captured_audio env.convert env.queryConfig 16000 1 s.audio.buffer
        = (some samples, buf) →
      (onRelease env s).transcribe_calls = s.transcribe_calls ++ [samples]) ∧
    ((get_captured_audio env.convert env.queryConfig 16000 1
        s.audio.buffer).1 = none →
      (onRelease env s).transcribe_calls = s.transcribe_calls) := by
  have hrel : onRelease env s = transcribePhase env
      { s with audio := stop_capture s.audio, recording_start := none } := by
    unfold onRelease
    dsimp only
    rw [hs]
    dsimp only
    rw [if_neg hlong]
  have hspec := transcribePhase_spec env
    { s with audio := stop_capture s.audio, recording_start := none }
  rw [hrel]
  exact ⟨hspec.2.1, le_trans hp hspec.2.2.1, hspec.1, hspec.2.2.2.1,
    hspec.2.2.2.2⟩

/-- Witness for C2: a 2 s session, native 16 kHz mono, buffer `[0.5]`,
whisper succeeding — the sample buffer is handed over once, the log ends
in "Ready" and the controller is idle with a permit available. -/
theorem C2_release_after_min_duration_witness :
    (onRelease longReleaseEnv recordingCtrl).recording_start = none ∧
    1 ≤ (onRelease longReleaseEnv recordingCtrl).permits ∧
    (onRelease longReleaseEnv recordingCtrl).emits
      = ["Listening", "Transcribing", "Ready"] ∧
    (onRelease longReleaseEnv recordingCtrl).transcribe_calls = [[1/2]] := by
  have h := C2_release_after_min_duration longReleaseEnv recordingCtrl 0 rfl
    (by decide) (by decide)
  have hd : get_captured_audio longReleaseEnv.convert
      longReleaseEnv.queryConfig 16000 1 recordingCtrl.audio.buffer
        = (some [1/2], []) := by
    norm_num [longReleaseEnv, recordingCtrl, capturingAudio, idleAudio,
      noResampler, get_captured_audio, channel_and_rate_transform,
      channel_step]
  refine ⟨h.1, h.2.1, by simpa using h.2.2.1, ?_⟩
  simpa using h.2.2.2.1 [1/2] [] hd

/-- C1 fails on the code: the press branch binds the acquired
`SemaphorePermit` as `_permit` without `forget()`, so the permit is
dropped — and returned to the semaphore — when the press block ends,
contradicting the closure's own comments ("Try to acquire the semaphore
permit", the "Recording already in progress" warning, and the manual
"Release the semaphore permit" via `add_permits(1)`).  Concretely: after a
first press and a delivered block `[0.5]`, a second press while the first
session is still recording finds one available permit, its `try_acquire`
succeeds, `start_capture` runs again ("Listening" emitted twice) and the
first session's buffer is cleared; moreover a successful release adds a
second permit, so two permits are then outstanding-able system-wide. -/
theorem C1_permit_not_held_across_session :
    afterBlock.permits = 1 ∧
    afterBlock.audio.buffer = [1/2] ∧
    pressedTwice.emits = ["Listening", "Listening"] ∧
    pressedTwice.audio.buffer = [] ∧
    pressedTwice.recording_start = some 100 ∧
    (onRelease longReleaseEnv afterBlock).permits = 2 := by
  norm_num [pressedTwice, afterBlock, pressedOnce, initCtrl, idleAudio,
    SilenceConfig.default, onPress, try_acquire, start_capture, inputDataFn,
    processBlock, onRelease, stop_capture, transcribePhase,
    get_captured_audio, channel_and_rate_transform, channel_step,
    longReleaseEnv, noResampler, MIN_RECORDING_DURATION]

end Whispr
